import Mathlib

/-
  Verification model of src/client/components/ToolPanel.jsx.

  The component mediates between a realtime session event feed and two tools
  (display_color_palette, foreign_worker_enquiry): it registers the tool
  catalog once per session, dispatches function_call outputs found in
  response.done events, maintains a 50-entry newest-first debug log, and
  emits follow-up response.create instructions back to the transport.

  The embedding is a shallow one: React state becomes an explicit PanelState
  record, the two useEffect bodies become pure state-transition functions,
  JavaScript exceptions become Except/err values, and the two asynchronous
  continuations (the 500 ms timer of the palette handler and the fetch
  promise chain of the enquiry handler) become PendingTask values whose
  completion is a separate transition function.  JSON.parse is modelled by a
  small executable JSON parser over the argument strings.
-/

/-- JSON values, the result type of the modelled JSON.parse. -/
inductive Json where
  | null
  | bool (b : Bool)
  | num (n : Int)
  | str (s : String)
  | arr (elems : List Json)
  | obj (fields : List (String × Json))
deriving Repr

/-- Whitespace recognised between JSON tokens. -/
def isJsonWs (c : Char) : Bool :=
  c = ' ' || c = '\n' || c = '\t' || c = '\r'

/-- Drop leading JSON whitespace. -/
def skipWs : List Char → List Char
  | [] => []
  | c :: cs => if isJsonWs c then skipWs cs else c :: cs

/-- Read the body of a JSON string up to the closing quote. -/
def parseStringChars : List Char → Option (String × List Char)
  | [] => none
  | c :: cs =>
    if c = '"' then some ("", cs)
    else
      match parseStringChars cs with
      | some (s, rest) => some (String.mk (c :: s.data), rest)
      | none => none

/-- Match a literal character sequence, returning the remainder. -/
def matchLit : List Char → List Char → Option (List Char)
  | [], cs => some cs
  | _ :: _, [] => none
  | p :: ps, c :: cs => if c = p then matchLit ps cs else none

/-- Numeric value of a digit list. -/
def digitsToNat (ds : List Char) : Nat :=
  ds.foldl (fun a c => a * 10 + (c.toNat - 48)) 0

/-- Parse an (integer) JSON number. -/
def parseNumber (cs : List Char) : Option (Json × List Char) :=
  match cs with
  | '-' :: cs1 =>
    let ds := cs1.takeWhile (fun c => c.isDigit)
    let rest := cs1.dropWhile (fun c => c.isDigit)
    if ds.isEmpty then none else some (Json.num (-(digitsToNat ds : Int)), rest)
  | _ =>
    let ds := cs.takeWhile (fun c => c.isDigit)
    let rest := cs.dropWhile (fun c => c.isDigit)
    if ds.isEmpty then none else some (Json.num (digitsToNat ds), rest)

mutual

/-- Parse one JSON value (fuel-bounded recursive descent). -/
def parseValue : Nat → List Char → Option (Json × List Char)
  | 0, _ => none
  | Nat.succ f, cs =>
    match skipWs cs with
    | [] => none
    | c :: cs1 =>
      if c = '"' then
        match parseStringChars cs1 with
        | some (s, rest) => some (Json.str s, rest)
        | none => none
      else if c = Char.ofNat 123 then
        match skipWs cs1 with
        | [] => none
        | c2 :: cs2 =>
          if c2 = Char.ofNat 125 then some (Json.obj [], cs2)
          else
            match parseFields f (c2 :: cs2) with
            | some (fs, rest) => some (Json.obj fs, rest)
            | none => none
      else if c = '[' then
        match skipWs cs1 with
        | [] => none
        | c2 :: cs2 =>
          if c2 = ']' then some (Json.arr [], cs2)
          else
            match parseElems f (c2 :: cs2) with
            | some (es, rest) => some (Json.arr es, rest)
            | none => none
      else if c = 't' then
        (matchLit ['r', 'u', 'e'] cs1).map (fun r => (Json.bool true, r))
      else if c = 'f' then
        (matchLit ['a', 'l', 's', 'e'] cs1).map (fun r => (Json.bool false, r))
      else if c = 'n' then
        (matchLit ['u', 'l', 'l'] cs1).map (fun r => (Json.null, r))
      else if c = '-' then parseNumber (c :: cs1)
      else if c.isDigit then parseNumber (c :: cs1)
      else none

/-- Parse the members of a JSON object (at least one). -/
def parseFields : Nat → List Char → Option (List (String × Json) × List Char)
  | 0, _ => none
  | Nat.succ f, cs =>
    match cs with
    | c :: cs1 =>
      if c = '"' then
        match parseStringChars cs1 with
        | some (key, cs2) =>
          match skipWs cs2 with
          | c3 :: cs3 =>
            if c3 = ':' then
              match parseValue f cs3 with
              | some (v, cs4) =>
                match skipWs cs4 with
                | c5 :: cs5 =>
                  if c5 = ',' then
                    match parseFields f (skipWs cs5) with
                    | some (fs, rest) => some ((key, v) :: fs, rest)
                    | none => none
                  else if c5 = Char.ofNat 125 then some ([(key, v)], cs5)
                  else none
                | [] => none
              | none => none
            else none
          | [] => none
        | none => none
      else none
    | [] => none

/-- Parse the elements of a JSON array (at least one). -/
def parseElems : Nat → List Char → Option (List Json × List Char)
  | 0, _ => none
  | Nat.succ f, cs =>
    match parseValue f cs with
    | some (v, cs1) =>
      match skipWs cs1 with
      | c2 :: cs2 =>
        if c2 = ',' then
          match parseElems f cs2 with
          | some (es, rest) => some (v :: es, rest)
          | none => none
        else if c2 = ']' then some (v :: [], cs2)
        else none
      | [] => none
    | none => none

end

/-- Model of JavaScript JSON.parse: some value on success, none where
JSON.parse would throw a SyntaxError. -/
def jsonParse (s : String) : Option Json :=
  match parseValue (3 * s.length + 3) s.data with
  | some (v, rest) => if (skipWs rest).isEmpty then some v else none
  | none => none

/-- Model of JavaScript property access obj.key: the last binding of the key
for objects (matching JSON.parse duplicate-key behaviour), undefined (none)
otherwise. -/
def Json.getField : Json → String → Option Json
  | Json.obj fs, key =>
      fs.foldl (fun acc p => if p.1 = key then some p.2 else acc) none
  | _, _ => none

/-! ## Event feed and static tool catalog -/

/-- One entry of a response.done event's response.output list. -/
structure OutputEntry where
  type : String
  name : String
  arguments : String
deriving Repr

/-- The response field of a feed event; output is none where the JavaScript
value would be absent or null. -/
structure ResponseField where
  output : Option (List OutputEntry)
deriving Repr

/-- One event of the observed feed (newest first at index 0). -/
structure SessionEvent where
  type : String
  response : ResponseField
deriving Repr

/-- One declared tool of the static catalog (source constant sessionUpdate). -/
structure ToolDeclaration where
  type : String
  name : String
  description : String
  parameters : Json
deriving Repr

def colorPaletteDescription : String :=
  "\nCall this function when a user asks for a color palette.\n"

def foreignWorkerDescription : String :=
  "\nCall this function when a user asks about foreign worker requirements or employment passes.\n"

/-- The display_color_palette declaration of the source sessionUpdate constant. -/
def displayColorPaletteTool : ToolDeclaration where
  type := "function"
  name := "display_color_palette"
  description := colorPaletteDescription
  parameters := Json.obj
    [("type", Json.str "object"),
     ("strict", Json.bool true),
     ("properties", Json.obj
       [("theme", Json.obj
          [("type", Json.str "string"),
           ("description", Json.str "Description of the theme for the color scheme.")]),
        ("colors", Json.obj
          [("type", Json.str "array"),
           ("description", Json.str "Array of five hex color codes based on the theme."),
           ("items", Json.obj
             [("type", Json.str "string"),
              ("description", Json.str "Hex color code")])])]),
     ("required", Json.arr [Json.str "theme", Json.str "colors"])]

/-- The foreign_worker_enquiry declaration of the source sessionUpdate constant. -/
def foreignWorkerEnquiryTool : ToolDeclaration where
  type := "function"
  name := "foreign_worker_enquiry"
  description := foreignWorkerDescription
  parameters := Json.obj
    [("type", Json.str "object"),
     ("strict", Json.bool true),
     ("properties", Json.obj
       [("question", Json.obj
          [("type", Json.str "string"),
           ("description", Json.str "The question about foreign worker requirements")]),
        ("sessionId", Json.obj
          [("type", Json.str "string"),
           ("description", Json.str "Session ID for the query")])]),
     ("required", Json.arr [Json.str "question", Json.str "sessionId"])]

/-- sessionUpdate.session.tools of the source. -/
def sessionTools : List ToolDeclaration :=
  [displayColorPaletteTool, foreignWorkerEnquiryTool]

/-! ## Component state, log recorder and outbound events -/

/-- Payload of a log entry (the data argument of addLog at each call site). -/
inductive LogData where
  | event (e : SessionEvent)
  | tools (ts : List ToolDeclaration)
  | functionCall (name : String) (args : Json)
  | apiRequest (endpoint : String) (question : Option Json) (sessionId : Option Json)
  | apiResponse (body : Json)
  | apiError (err : String)
  | sessionReset (timestamp : Nat)
deriving Repr

/-- One debug-log entry; timestamps are modelled by a monotone counter in
place of Date.toISOString strings. -/
structure LogEntry where
  timestamp : Nat
  type : String
  data : LogData
deriving Repr

/-- The React state of the ToolPanel component, plus the clock that stands
for wall time. -/
structure PanelState where
  functionAdded : Bool
  functionCallOutput : Option OutputEntry
  logs : List LogEntry
  clock : Nat
deriving Repr

/-- The useState initial values: flag false, no outcome, empty logs. -/
def initialState : PanelState where
  functionAdded := false
  functionCallOutput := none
  logs := []
  clock := 0

/-- addLog of the source: prepend a timestamped entry, keep the most recent
50 entries (prevLogs slice 0 50). -/
def addLog (st : PanelState) (type : String) (data : LogData) : PanelState :=
  { st with
      logs := ({ timestamp := st.clock, type := type, data := data } :: st.logs).take 50,
      clock := st.clock + 1 }

/-- Events sent through sendClientEvent. -/
inductive ClientEvent where
  | session_update (tools : List ToolDeclaration) (tool_choice : String)
  | response_create (instructions : Option Json)
deriving Repr

/-- The sessionUpdate registration event of the source. -/
def sessionUpdate : ClientEvent :=
  ClientEvent.session_update sessionTools "auto"

/-! ## Dispatch: the events useEffect -/

/-- The fixed follow-up instruction of the display_color_palette handler. -/
def paletteFeedbackText : String :=
  "\n                  ask for feedback about the color palette - don't repeat \n                  the colors, just ask if they like the colors.\n                "

/-- The fixed apology instruction of the enquiry failure path. -/
def apologyText : String :=
  "Sorry, there was an error processing your request."

/-- The remote prediction endpoint of the enquiry handler. -/
def enquiryEndpoint : String :=
  "http://127.0.0.1:3001/api/v1/prediction/445d78bd-6f55-4465-97b0-ba42c14d8a95"

/-- An asynchronous continuation left pending by a handler: the 500 ms
palette timer, or an in-flight enquiry fetch with its request payload. -/
inductive PendingTask where
  | paletteTimer
  | enquiry (question : Option Json) (sessionId : Option Json)
deriving Repr

/-- Accumulated synchronous effects of one dispatcher run: the state after
the run, the events sent (chronological order) and the tasks left pending. -/
structure Effects where
  state : PanelState
  sent : List ClientEvent
  tasks : List PendingTask
deriving Repr

/-- Dispatch of one output entry (the forEach body, lines 148-214 of the
source).  A throw is modelled as Except.error carrying the message and the
effects accumulated up to the throw point.  JSON.parse of the arguments
(line 152) throws where jsonParse is none; nothing of the entry has
executed then.  On success the entry is logged, recorded as current
outcome, and routed by name; unknown names fall through with no further
effect.  In the enquiry branch the source re-parses the arguments (line
169, the same value) and then reads args.question (line 174): when the
parsed arguments are null that property access throws a TypeError — after
the Function Call log and the outcome record, but before the API Request
log, so no request is logged and no fetch is issued. -/
def dispatchEntry (eff : Effects) (output : OutputEntry) :
    Except (String × Effects) Effects :=
  if output.type = "function_call" then
    match jsonParse output.arguments with
    | none => Except.error ("SyntaxError: JSON.parse", eff)
    | some parsedArgs =>
      let st1 := addLog eff.state "Function Call"
        (LogData.functionCall output.name parsedArgs)
      let st2 := { st1 with functionCallOutput := some output }
      if output.name = "display_color_palette" then
        Except.ok { state := st2, sent := eff.sent,
                    tasks := eff.tasks ++ [PendingTask.paletteTimer] }
      else if output.name = "foreign_worker_enquiry" then
        match parsedArgs with
        | Json.null =>
          Except.error ("TypeError: args is null",
            { state := st2, sent := eff.sent, tasks := eff.tasks })
        | _ =>
          let question := parsedArgs.getField "question"
          let sessionId := parsedArgs.getField "sessionId"
          let st3 := addLog st2 "API Request"
            (LogData.apiRequest enquiryEndpoint question sessionId)
          Except.ok { state := st3, sent := eff.sent,
                      tasks := eff.tasks ++ [PendingTask.enquiry question sessionId] }
      else
        Except.ok { state := st2, sent := eff.sent, tasks := eff.tasks }
  else
    Except.ok eff

/-- Result of one run of the events useEffect: the effects produced, and the
exception that escaped it, if any. -/
structure DispatchResult where
  effects : Effects
  error : Option String
deriving Repr

/-- output.forEach of the source: entries in list order; a throwing entry
keeps the effects performed before the throw, contributes nothing further,
and stops the iteration (the exception propagates out of the dispatcher). -/
def dispatchOutputs (eff : Effects) : List OutputEntry → DispatchResult
  | [] => { effects := eff, error := none }
  | o :: rest =>
    match dispatchEntry eff o with
    | Except.ok eff1 => dispatchOutputs eff1 rest
    | Except.error pe => { effects := pe.2, error := some pe.1 }

/-- The session gate (lines 136-141): when the flag is down and the oldest
event is session.created, log it, send the registration event, raise the
flag and log the registered tools. -/
def sessionGateStep (eff : Effects) (firstEvent : SessionEvent) : Effects :=
  if eff.state.functionAdded = false ∧ firstEvent.type = "session.created" then
    let st1 := addLog eff.state "Session Created" (LogData.event firstEvent)
    let sent1 := eff.sent ++ [sessionUpdate]
    let st2 := { st1 with functionAdded := true }
    let st3 := addLog st2 "Tools Registered" (LogData.tools sessionTools)
    { state := st3, sent := sent1, tasks := eff.tasks }
  else eff

/-- The output check (lines 143-215): when the newest event is a
response.done carrying an output list, dispatch its entries. -/
def outputCheckStep (eff : Effects) (mostRecentEvent : SessionEvent) : DispatchResult :=
  if mostRecentEvent.type = "response.done" then
    match mostRecentEvent.response.output with
    | some outputs => dispatchOutputs eff outputs
    | none => { effects := eff, error := none }
  else { effects := eff, error := none }

/-- One run of the events useEffect (lines 132-216): no-op on an empty feed;
otherwise the gate reads the oldest event (last index) and the output check
reads the newest (index 0). -/
def eventsEffect (st : PanelState) (events : List SessionEvent) : DispatchResult :=
  match events.getLast?, events.head? with
  | some firstEvent, some mostRecentEvent =>
    let eff1 := sessionGateStep { state := st, sent := [], tasks := [] } firstEvent
    outputCheckStep eff1 mostRecentEvent
  | _, _ => { effects := { state := st, sent := [], tasks := [] }, error := none }

/-! ## Completion of the pending tasks -/

/-- How an in-flight fetch settles: a rejected promise (network error), or
an HTTP response with a status and a raw body.  fetch resolves for every
HTTP status; response.json() then parses the body. -/
inductive FetchOutcome where
  | networkError (err : String)
  | httpResponse (status : Nat) (body : String)
deriving Repr

/-- The palette setTimeout callback (lines 157-167): emit the fixed
feedback instruction; no log. -/
def paletteTimerFire (st : PanelState) : PanelState × List ClientEvent :=
  (st, [ClientEvent.response_create (some (Json.str paletteFeedbackText))])

/-- The enquiry promise chain (lines 192-211).  A rejected fetch or an
unparseable body reaches the catch: log API Error, emit the apology.  A
parsed body is logged as API Response; a null body then makes data.text
throw inside the then, which the catch also turns into the apology; any
other body emits its text field (undefined where absent) as instructions.
The HTTP status is never consulted. -/
def enquiryComplete (st : PanelState) (outcome : FetchOutcome) :
    PanelState × List ClientEvent :=
  match outcome with
  | FetchOutcome.networkError err =>
    (addLog st "API Error" (LogData.apiError err),
     [ClientEvent.response_create (some (Json.str apologyText))])
  | FetchOutcome.httpResponse _ body =>
    match jsonParse body with
    | none =>
      (addLog st "API Error" (LogData.apiError "SyntaxError: response.json"),
       [ClientEvent.response_create (some (Json.str apologyText))])
    | some data =>
      let st1 := addLog st "API Response" (LogData.apiResponse data)
      match data with
      | Json.null =>
        (addLog st1 "API Error" (LogData.apiError "TypeError: data is null"),
         [ClientEvent.response_create (some (Json.str apologyText))])
      | _ =>
        (st1, [ClientEvent.response_create (data.getField "text")])

/-- Completion of a pending task: the timer ignores the fetch outcome. -/
def runTask (st : PanelState) : PendingTask → FetchOutcome → PanelState × List ClientEvent
  | PendingTask.paletteTimer, _ => paletteTimerFire st
  | PendingTask.enquiry _ _, outcome => enquiryComplete st outcome

/-! ## Session reset and projection -/

/-- The isSessionActive useEffect (lines 218-225): on deactivation drop the
flag, clear the outcome, empty the logs and append one Session Reset entry. -/
def sessionResetEffect (st : PanelState) (isSessionActive : Bool) : PanelState :=
  if isSessionActive then st
  else
    let st1 := { st with functionAdded := false, functionCallOutput := none,
                         logs := ([] : List LogEntry) }
    addLog st1 "Session Reset" (LogData.sessionReset st1.clock)

/-- Display form produced by the FunctionCallOutput component. -/
inductive Render where
  | palette (theme : Option Json) (colorBoxes : List Json) (raw : OutputEntry)
  | enquiryCard (question : Option Json) (raw : OutputEntry)
deriving Repr

/-- The FunctionCallOutput component (lines 64-112): the palette branch
parses the arguments (throwing on bad JSON), destructures them (throwing on
null) and maps over colors (throwing unless colors is an array); the
enquiry branch parses and destructures; any other name renders nothing and
touches nothing. -/
def FunctionCallOutput (fco : OutputEntry) : Except String (Option Render) :=
  if fco.name = "display_color_palette" then
    match jsonParse fco.arguments with
    | none => Except.error "SyntaxError: JSON.parse"
    | some args =>
      match args with
      | Json.null => Except.error "TypeError: destructuring null"
      | _ =>
        match args.getField "colors" with
        | some (Json.arr colors) =>
          Except.ok (some (Render.palette (args.getField "theme") colors fco))
        | _ => Except.error "TypeError: colors.map is not a function"
  else if fco.name = "foreign_worker_enquiry" then
    match jsonParse fco.arguments with
    | none => Except.error "SyntaxError: JSON.parse"
    | some args =>
      match args with
      | Json.null => Except.error "TypeError: destructuring null"
      | _ => Except.ok (some (Render.enquiryCard (args.getField "question") fco))
  else Except.ok none

/-! ## Derived iteration forms and concrete fixtures -/

/-- Fold of addLog over a chronological list of appends. -/
def appendAll (st : PanelState) (l : List (String × LogData)) : PanelState :=
  l.foldl (fun s p => addLog s p.1 p.2) st

/-- The entries a chronological append list creates, oldest first, starting
at clock c. -/
def mkEntries (c : Nat) : List (String × LogData) → List LogEntry
  | [] => []
  | (t, d) :: rest => { timestamp := c, type := t, data := d } :: mkEntries (c + 1) rest

/-- A concrete chronological sequence of sixty appends. -/
def sixtyAppends : List (String × LogData) :=
  (List.range 60).map (fun i => ("Entry", LogData.sessionReset i))

/-- Valid display_color_palette arguments. -/
def paletteArgs : String :=
  "\x7b\"theme\":\"ocean\",\"colors\":[\"#001\",\"#002\",\"#003\",\"#004\",\"#005\"]\x7d"

/-- A valid display_color_palette call entry. -/
def paletteEntry : OutputEntry where
  type := "function_call"
  name := "display_color_palette"
  arguments := paletteArgs

/-- Valid foreign_worker_enquiry arguments. -/
def enquiryArgs : String :=
  "\x7b\"question\":\"What are the EP requirements?\",\"sessionId\":\"abc\"\x7d"

/-- A valid foreign_worker_enquiry call entry. -/
def enquiryEntry : OutputEntry where
  type := "function_call"
  name := "foreign_worker_enquiry"
  arguments := enquiryArgs

/-- A function_call entry whose arguments do not parse. -/
def badEntry : OutputEntry where
  type := "function_call"
  name := "display_color_palette"
  arguments := "not json"

/-- A function_call entry with an unrecognised tool name. -/
def unknownEntry : OutputEntry where
  type := "function_call"
  name := "mystery_tool"
  arguments := "\x7b\x7d"

/-- A foreign_worker_enquiry call whose arguments parse to null. -/
def nullArgsEntry : OutputEntry where
  type := "function_call"
  name := "foreign_worker_enquiry"
  arguments := "null"

/-- Effects accumulator at the start of a dispatcher run over initialState. -/
def emptyEffects : Effects where
  state := initialState
  sent := []
  tasks := []

/-- A session.created feed event. -/
def createdEvent : SessionEvent where
  type := "session.created"
  response := { output := none }

/-- A response.done feed event carrying the given output list. -/
def doneEvent (outs : List OutputEntry) : SessionEvent where
  type := "response.done"
  response := { output := some outs }

/-- A response body whose text field is "Answer.". -/
def answerBody : String := "\x7b\"text\":\"Answer.\"\x7d"

/-- A panel state whose catalog is already registered. -/
def registeredState : PanelState where
  functionAdded := true
  functionCallOutput := none
  logs := []
  clock := 0

/-- A non-2xx HTTP response carrying a decodable JSON body. -/
def serverErrorOutcome : FetchOutcome :=
  FetchOutcome.httpResponse 500 "\x7b\"text\":\"oops\"\x7d"

/-- The parsed palette arguments object. -/
def paletteArgsJson : Json :=
  Json.obj [("theme", Json.str "ocean"),
    ("colors", Json.arr [Json.str "#001", Json.str "#002", Json.str "#003",
      Json.str "#004", Json.str "#005"])]

/-- The parsed enquiry arguments object. -/
def enquiryArgsJson : Json :=
  Json.obj [("question", Json.str "What are the EP requirements?"),
    ("sessionId", Json.str "abc")]

/-! ## Basic lemmas about the state transitions -/

@[simp]
theorem addLog_functionAdded (st : PanelState) (t : String) (d : LogData) :
    (addLog st t d).functionAdded = st.functionAdded := rfl

@[simp]
theorem addLog_functionCallOutput (st : PanelState) (t : String) (d : LogData) :
    (addLog st t d).functionCallOutput = st.functionCallOutput := rfl

@[simp]
theorem addLog_clock (st : PanelState) (t : String) (d : LogData) :
    (addLog st t d).clock = st.clock + 1 := rfl

@[simp]
theorem addLog_logs (st : PanelState) (t : String) (d : LogData) :
    (addLog st t d).logs =
      ({ timestamp := st.clock, type := t, data := d } :: st.logs).take 50 := rfl

/-- A successful entry dispatch never sends an event and never touches the
registration flag. -/
theorem dispatchEntry_preserves (eff : Effects) (o : OutputEntry) (eff1 : Effects)
    (h : dispatchEntry eff o = Except.ok eff1) :
    eff1.sent = eff.sent ∧ eff1.state.functionAdded = eff.state.functionAdded := by
  unfold dispatchEntry at h
  split at h
  · split at h
    · exact Except.noConfusion h
    · dsimp only [] at h
      split at h
      · injection h with h2
        subst h2
        exact ⟨rfl, rfl⟩
      · split at h
        · split at h
          · exact Except.noConfusion h
          · injection h with h2
            subst h2
            exact ⟨rfl, rfl⟩
        · injection h with h2
          subst h2
          exact ⟨rfl, rfl⟩
  · injection h with h2
    subst h2
    exact ⟨rfl, rfl⟩

/-- A throwing entry dispatch has sent no event and left the registration
flag untouched at the moment of the throw. -/
theorem dispatchEntry_error_preserves (eff : Effects) (o : OutputEntry)
    (pe : String × Effects) (h : dispatchEntry eff o = Except.error pe) :
    pe.2.sent = eff.sent ∧ pe.2.state.functionAdded = eff.state.functionAdded := by
  unfold dispatchEntry at h
  split at h
  · split at h
    · injection h with h2
      subst h2
      exact ⟨rfl, rfl⟩
    · dsimp only [] at h
      split at h
      · exact Except.noConfusion h
      · split at h
        · split at h
          · injection h with h2
            subst h2
            exact ⟨rfl, rfl⟩
          · exact Except.noConfusion h
        · exact Except.noConfusion h
  · exact Except.noConfusion h

/-- The forEach over output entries never sends an event and never touches
the registration flag. -/
theorem dispatchOutputs_preserves (outputs : List OutputEntry) :
    ∀ eff : Effects,
      (dispatchOutputs eff outputs).effects.sent = eff.sent ∧
      (dispatchOutputs eff outputs).effects.state.functionAdded =
        eff.state.functionAdded := by
  induction outputs with
  | nil => intro eff; exact ⟨rfl, rfl⟩
  | cons o rest ih =>
    intro eff
    simp only [dispatchOutputs]
    cases h : dispatchEntry eff o with
    | ok eff1 =>
      obtain ⟨hs, hf⟩ := dispatchEntry_preserves eff o eff1 h
      obtain ⟨hs2, hf2⟩ := ih eff1
      exact ⟨hs2.trans hs, hf2.trans hf⟩
    | error pe => exact dispatchEntry_error_preserves eff o pe h

/-- The output check never sends an event and never touches the flag. -/
theorem outputCheckStep_preserves (eff : Effects) (ev : SessionEvent) :
    (outputCheckStep eff ev).effects.sent = eff.sent ∧
    (outputCheckStep eff ev).effects.state.functionAdded =
      eff.state.functionAdded := by
  unfold outputCheckStep
  by_cases hty : ev.type = "response.done"
  · rw [if_pos hty]
    cases ev.response.output with
    | some outputs => exact dispatchOutputs_preserves outputs eff
    | none => exact ⟨rfl, rfl⟩
  · rw [if_neg hty]
    exact ⟨rfl, rfl⟩

/-- With the flag already set the session gate is a no-op. -/
theorem sessionGateStep_flag_set (eff : Effects) (ev : SessionEvent)
    (h : eff.state.functionAdded = true) : sessionGateStep eff ev = eff := by
  unfold sessionGateStep
  rw [if_neg]
  rintro ⟨hfa, -⟩
  rw [h] at hfa
  cases hfa

/-- A nonempty feed reduces a dispatcher run to the gate on the oldest event
followed by the output check on the newest. -/
theorem eventsEffect_cons (st : PanelState) (e : SessionEvent) (es : List SessionEvent)
    (fe : SessionEvent) (hl : (e :: es).getLast? = some fe) :
    eventsEffect st (e :: es) =
      outputCheckStep (sessionGateStep { state := st, sent := [], tasks := [] } fe) e := by
  unfold eventsEffect
  rw [hl]
  rfl

/-- With the flag set a dispatcher run sends nothing and keeps the flag. -/
theorem eventsEffect_flag_set (st : PanelState) (events : List SessionEvent)
    (h : st.functionAdded = true) :
    (eventsEffect st events).effects.sent = [] ∧
    (eventsEffect st events).effects.state.functionAdded = true := by
  cases events with
  | nil => exact ⟨rfl, h⟩
  | cons e es =>
    cases hl : (e :: es).getLast? with
    | none => exact absurd (List.getLast?_eq_none_iff.mp hl) (by simp)
    | some fe =>
      rw [eventsEffect_cons st e es fe hl, sessionGateStep_flag_set _ _ h]
      have hp := outputCheckStep_preserves { state := st, sent := [], tasks := [] } e
      exact ⟨hp.1, hp.2.trans h⟩

/-! ## C3: registration fires at most once per session -/

/-- C3: once the registration flag is set, a run of the dispatcher over any
event feed (further session.created events included) emits no outbound event
at all — in particular zero additional session.update registration events —
and leaves the flag set; the flag is reset exactly by session deactivation. -/
theorem registration_at_most_once (st : PanelState) (events : List SessionEvent)
    (h : st.functionAdded = true) :
    (eventsEffect st events).effects.sent = [] ∧
    (eventsEffect st events).effects.state.functionAdded = true ∧
    (sessionResetEffect st false).functionAdded = false := by
  obtain ⟨h1, h2⟩ := eventsEffect_flag_set st events h
  exact ⟨h1, h2, rfl⟩

/-- C3 witness: a registered panel receiving a fresh session.created event
re-registers nothing. -/
theorem registration_at_most_once_witness :
    (eventsEffect registeredState [createdEvent]).effects.sent = [] ∧
    (eventsEffect registeredState [createdEvent]).effects.state.functionAdded = true ∧
    (sessionResetEffect registeredState false).functionAdded = false :=
  registration_at_most_once registeredState [createdEvent] rfl

/-! ## C6: the log buffer is capacity-bounded at 50 -/

/-- mkEntries creates one entry per append. -/
theorem mkEntries_length (l : List (String × LogData)) :
    ∀ c : Nat, (mkEntries c l).length = l.length := by
  induction l with
  | nil => intro c; rfl
  | cons p rest ih =>
    intro c
    obtain ⟨t, d⟩ := p
    simp only [mkEntries, List.length_cons, ih]

/-- Re-truncating an already truncated suffix changes nothing. -/
theorem take50_append_take50 (A B : List LogEntry) :
    (A ++ B.take 50).take 50 = (A ++ B).take 50 := by
  rw [List.take_append_eq_append_take, List.take_append_eq_append_take,
    List.take_take]
  have hmin : min (50 - A.length) 50 = 50 - A.length :=
    Nat.min_eq_left (Nat.sub_le _ _)
  rw [hmin]

/-- Closed form of an append sequence: the created entries, newest first,
over the previous content, truncated to 50. -/
theorem appendAll_logs (l : List (String × LogData)) :
    ∀ st : PanelState, st.logs.length ≤ 50 →
      (appendAll st l).logs = ((mkEntries st.clock l).reverse ++ st.logs).take 50 := by
  induction l with
  | nil =>
    intro st h
    simp only [appendAll, List.foldl_nil, mkEntries, List.reverse_nil, List.nil_append]
    exact (List.take_of_length_le h).symm
  | cons p rest ih =>
    intro st h
    obtain ⟨t, d⟩ := p
    have hstep : appendAll st ((t, d) :: rest) = appendAll (addLog st t d) rest := rfl
    rw [hstep, ih (addLog st t d) (by simp only [addLog_logs]; exact List.length_take_le _ _)]
    simp only [addLog_logs, addLog_clock, mkEntries, List.reverse_cons]
    rw [take50_append_take50, List.append_assoc, List.singleton_append]

/-- C6: the log buffer never holds more than 50 entries, whatever the
sequence of appends; after a sequence of 60 appends it holds exactly the 50
most recently appended entries, newest first (the 10 oldest evicted). -/
theorem log_buffer_capacity :
    (∀ l : List (String × LogData), ((appendAll initialState l).logs).length ≤ 50) ∧
    (∀ l : List (String × LogData), l.length = 60 →
      (appendAll initialState l).logs = ((mkEntries 0 l).reverse).take 50 ∧
      ((appendAll initialState l).logs).length = 50) := by
  have hinit : (initialState.logs).length ≤ 50 := by
    simp [initialState]
  constructor
  · intro l
    rw [appendAll_logs l initialState hinit]
    exact List.length_take_le _ _
  · intro l hl
    have h := appendAll_logs l initialState hinit
    have hclock : initialState.clock = 0 := rfl
    have hlogs : initialState.logs = [] := rfl
    rw [hclock, hlogs, List.append_nil] at h
    refine ⟨h, ?_⟩
    rw [h, List.length_take, List.length_reverse, mkEntries_length l 0, hl]
    decide

/-- C6 witness: sixty concrete appends leave exactly 50 entries. -/
theorem log_buffer_capacity_witness :
    sixtyAppends.length = 60 ∧
    ((appendAll initialState sixtyAppends).logs).length = 50 :=
  ⟨by decide, (log_buffer_capacity.2 sixtyAppends (by decide)).2⟩

/-! ## C7: session deactivation resets the panel -/

/-- C7: when the session becomes inactive the registration flag drops, the
current tool outcome clears, and the log buffer holds exactly one fresh
Session Reset entry and nothing else. -/
theorem session_reset_state (st : PanelState) :
    sessionResetEffect st false =
      { functionAdded := false, functionCallOutput := none,
        logs := [{ timestamp := st.clock, type := "Session Reset",
                   data := LogData.sessionReset st.clock }],
        clock := st.clock + 1 } := rfl

/-! ## C1: malformed call arguments -/

/-- C1 (amended): a function_call entry whose arguments string does not
parse makes JSON.parse throw before any effect of the entry: the dispatch
contributes no state change, the exception escapes the forEach, and the
remaining sibling entries of the same output list are NOT dispatched. -/
theorem malformed_arguments_propagate (eff : Effects) (bad : OutputEntry)
    (rest : List OutputEntry)
    (hty : bad.type = "function_call")
    (hp : jsonParse bad.arguments = none) :
    dispatchOutputs eff (bad :: rest) =
      { effects := eff, error := some "SyntaxError: JSON.parse" } := by
  have hent : dispatchEntry eff bad = Except.error ("SyntaxError: JSON.parse", eff) := by
    unfold dispatchEntry
    rw [if_pos hty, hp]
  simp only [dispatchOutputs]
  rw [hent]

/-- C1 counterexample: with a malformed first entry the dispatcher throws
(error is some), the sibling palette call contributes nothing — although
dispatched alone it would schedule its timer. -/
theorem malformed_arguments_counterexample :
    (dispatchOutputs emptyEffects [badEntry, paletteEntry]).error =
      some "SyntaxError: JSON.parse" ∧
    (dispatchOutputs emptyEffects [badEntry, paletteEntry]).effects = emptyEffects ∧
    (dispatchOutputs emptyEffects [paletteEntry]).effects.tasks =
      [PendingTask.paletteTimer] :=
  ⟨rfl, rfl, rfl⟩

/-- C1 amended witness: concrete malformed entry followed by a valid sibling. -/
theorem malformed_arguments_propagate_witness :
    dispatchOutputs emptyEffects [badEntry, paletteEntry] =
      { effects := emptyEffects, error := some "SyntaxError: JSON.parse" } :=
  malformed_arguments_propagate emptyEffects badEntry [paletteEntry] rfl rfl

/-! ## C4: unknown tool names -/

/-- C4 (amended): a function_call whose name is neither declared tool is not
routed to any handler — dispatch emits no event and schedules no task, and
the projection renders nothing for it without throwing — but dispatch does
change state: it appends a Function Call log entry and records the entry as
the current outcome. -/
theorem unknown_tool_not_routed (eff : Effects) (entry : OutputEntry) (a : Json)
    (hty : entry.type = "function_call")
    (hp : jsonParse entry.arguments = some a)
    (hn1 : entry.name ≠ "display_color_palette")
    (hn2 : entry.name ≠ "foreign_worker_enquiry") :
    dispatchEntry eff entry =
      Except.ok
        { state :=
            { addLog eff.state "Function Call" (LogData.functionCall entry.name a) with
                functionCallOutput := some entry },
          sent := eff.sent, tasks := eff.tasks } ∧
    FunctionCallOutput entry = Except.ok none := by
  constructor
  · unfold dispatchEntry
    rw [if_pos hty, hp]
    dsimp only []
    rw [if_neg hn1, if_neg hn2]
  · unfold FunctionCallOutput
    rw [if_neg hn1, if_neg hn2]

/-- C4 counterexample: dispatching an unknown tool name does change state —
the log grows and the current outcome is set. -/
theorem unknown_tool_counterexample :
    emptyEffects.state.logs.length = 0 ∧
    (dispatchOutputs emptyEffects [unknownEntry]).effects.state.logs.length = 1 ∧
    (dispatchOutputs emptyEffects [unknownEntry]).effects.state.functionCallOutput =
      some unknownEntry ∧
    (dispatchOutputs emptyEffects [unknownEntry]).effects.state ≠ emptyEffects.state := by
  refine ⟨rfl, rfl, rfl, ?_⟩
  intro h
  exact absurd (congrArg (fun s => s.logs.length) h) (by decide)

/-- C4 amended witness: a concrete unknown tool entry. -/
theorem unknown_tool_not_routed_witness :
    dispatchEntry emptyEffects unknownEntry =
      Except.ok
        { state :=
            { addLog emptyEffects.state "Function Call"
                (LogData.functionCall unknownEntry.name (Json.obj [])) with
                functionCallOutput := some unknownEntry },
          sent := emptyEffects.sent, tasks := emptyEffects.tasks } ∧
    FunctionCallOutput unknownEntry = Except.ok none :=
  unknown_tool_not_routed emptyEffects unknownEntry (Json.obj []) rfl rfl
    (by decide) (by decide)

/-! ## C2: enquiry failure handling -/

/-- C2 (amended): a foreign_worker_enquiry call that fails by network error
or by an undecodable response body reaches the catch handler: it appends an
API Error log entry and emits exactly one apology instruction, and no error
escapes the handler.  (A non-2xx HTTP response with a decodable body is NOT
a failure for this code: fetch resolves it and the success path runs — see
the counterexample.) -/
theorem enquiry_failure_apology :
    (∀ (st : PanelState) (e : String),
      enquiryComplete st (FetchOutcome.networkError e) =
        (addLog st "API Error" (LogData.apiError e),
         [ClientEvent.response_create (some (Json.str apologyText))])) ∧
    (∀ (st : PanelState) (status : Nat) (body : String), jsonParse body = none →
      enquiryComplete st (FetchOutcome.httpResponse status body) =
        (addLog st "API Error" (LogData.apiError "SyntaxError: response.json"),
         [ClientEvent.response_create (some (Json.str apologyText))])) := by
  constructor
  · intro st e
    rfl
  · intro st status body hp
    unfold enquiryComplete
    dsimp only []
    rw [hp]

/-- C2 counterexample: an HTTP 500 response with the decodable body
\x7b"text":"oops"\x7d is logged as API Response (never API Error) and emits
"oops", not the apology — the claim fails for the non-2xx failure mode. -/
theorem enquiry_non2xx_counterexample :
    (enquiryComplete initialState serverErrorOutcome).1.logs.map (fun e => e.type) =
      ["API Response"] ∧
    (enquiryComplete initialState serverErrorOutcome).2 =
      [ClientEvent.response_create (some (Json.str "oops"))] ∧
    "oops" ≠ apologyText :=
  ⟨rfl, rfl, by decide⟩

/-- C2 amended witness: an undecodable body yields the API Error log and the
apology instruction. -/
theorem enquiry_failure_apology_witness :
    enquiryComplete initialState (FetchOutcome.httpResponse 200 "garbage") =
      (addLog initialState "API Error" (LogData.apiError "SyntaxError: response.json"),
       [ClientEvent.response_create (some (Json.str apologyText))]) :=
  enquiry_failure_apology.2 initialState 200 "garbage" rfl

/-! ## Dispatch branch lemmas -/

/-- Dispatch of a valid display_color_palette entry: log, record outcome,
schedule the timer; nothing sent synchronously. -/
theorem dispatchEntry_palette (eff : Effects) (entry : OutputEntry) (a : Json)
    (hty : entry.type = "function_call")
    (hp : jsonParse entry.arguments = some a)
    (h1 : entry.name = "display_color_palette") :
    dispatchEntry eff entry =
      Except.ok
        { state :=
            { addLog eff.state "Function Call" (LogData.functionCall entry.name a) with
                functionCallOutput := some entry },
          sent := eff.sent, tasks := eff.tasks ++ [PendingTask.paletteTimer] } := by
  unfold dispatchEntry
  rw [if_pos hty, hp]
  dsimp only []
  rw [if_pos h1]

/-- Dispatch of a valid foreign_worker_enquiry entry whose parsed arguments
are not null: log the call, record the outcome, log the API request,
schedule the fetch; nothing sent yet. -/
theorem dispatchEntry_enquiry (eff : Effects) (entry : OutputEntry) (a : Json)
    (hty : entry.type = "function_call")
    (hp : jsonParse entry.arguments = some a)
    (h2 : entry.name = "foreign_worker_enquiry")
    (hnn : a ≠ Json.null) :
    dispatchEntry eff entry =
      Except.ok
        { state :=
            addLog
              { addLog eff.state "Function Call" (LogData.functionCall entry.name a) with
                  functionCallOutput := some entry }
              "API Request"
              (LogData.apiRequest enquiryEndpoint (a.getField "question")
                (a.getField "sessionId")),
          sent := eff.sent,
          tasks := eff.tasks ++
            [PendingTask.enquiry (a.getField "question") (a.getField "sessionId")] } := by
  have h1 : entry.name ≠ "display_color_palette" := by
    rw [h2]
    decide
  unfold dispatchEntry
  rw [if_pos hty, hp]
  dsimp only []
  rw [if_neg h1, if_pos h2]
  cases a <;> first | exact absurd rfl hnn | rfl

/-- Every completion of the enquiry promise chain emits exactly one
response.create event. -/
theorem enquiryComplete_one_event (st : PanelState) (outcome : FetchOutcome) :
    ∃ (st1 : PanelState) (ins : Option Json),
      enquiryComplete st outcome = (st1, [ClientEvent.response_create ins]) := by
  cases outcome with
  | networkError e =>
    exact ⟨addLog st "API Error" (LogData.apiError e),
      some (Json.str apologyText), rfl⟩
  | httpResponse status body =>
    cases hp : jsonParse body with
    | none =>
      refine ⟨addLog st "API Error" (LogData.apiError "SyntaxError: response.json"),
        some (Json.str apologyText), ?_⟩
      unfold enquiryComplete
      dsimp only []
      rw [hp]
    | some data =>
      cases data with
      | null =>
        refine ⟨addLog (addLog st "API Response" (LogData.apiResponse Json.null))
            "API Error" (LogData.apiError "TypeError: data is null"),
          some (Json.str apologyText), ?_⟩
        unfold enquiryComplete
        dsimp only []
        rw [hp]
      | bool b =>
        refine ⟨addLog st "API Response" (LogData.apiResponse (Json.bool b)),
          (Json.bool b).getField "text", ?_⟩
        unfold enquiryComplete
        dsimp only []
        rw [hp]
      | num n =>
        refine ⟨addLog st "API Response" (LogData.apiResponse (Json.num n)),
          (Json.num n).getField "text", ?_⟩
        unfold enquiryComplete
        dsimp only []
        rw [hp]
      | str s =>
        refine ⟨addLog st "API Response" (LogData.apiResponse (Json.str s)),
          (Json.str s).getField "text", ?_⟩
        unfold enquiryComplete
        dsimp only []
        rw [hp]
      | arr es =>
        refine ⟨addLog st "API Response" (LogData.apiResponse (Json.arr es)),
          (Json.arr es).getField "text", ?_⟩
        unfold enquiryComplete
        dsimp only []
        rw [hp]
      | obj fs =>
        refine ⟨addLog st "API Response" (LogData.apiResponse (Json.obj fs)),
          (Json.obj fs).getField "text", ?_⟩
        unfold enquiryComplete
        dsimp only []
        rw [hp]

/-! ## C5: follow-up instructions per recognized call -/

/-- C5 (amended): dispatching a recognized function call — any
display_color_palette call with parseable arguments, or a
foreign_worker_enquiry call whose parsed arguments are not null — emits
nothing synchronously but schedules exactly one pending task, and every
completion of that task (timer fired, fetch success, fetch failure) emits
exactly one response.create instruction event.  The exception: an enquiry
call whose arguments parse to null throws a TypeError at args.question
after the Function Call log and outcome record, schedules nothing and so
never emits a follow-up. -/
theorem recognized_call_one_followup :
    (∀ (eff : Effects) (entry : OutputEntry) (a : Json),
      entry.type = "function_call" →
      jsonParse entry.arguments = some a →
      (entry.name = "display_color_palette" ∨
        (entry.name = "foreign_worker_enquiry" ∧ a ≠ Json.null)) →
      ∃ (eff1 : Effects) (t : PendingTask),
        dispatchEntry eff entry = Except.ok eff1 ∧
        eff1.sent = eff.sent ∧
        eff1.tasks = eff.tasks ++ [t] ∧
        ∀ (st : PanelState) (outcome : FetchOutcome),
          ∃ (st1 : PanelState) (ins : Option Json),
            runTask st t outcome = (st1, [ClientEvent.response_create ins])) ∧
    (∀ (eff : Effects) (entry : OutputEntry),
      entry.type = "function_call" →
      entry.name = "foreign_worker_enquiry" →
      jsonParse entry.arguments = some Json.null →
      dispatchEntry eff entry =
        Except.error ("TypeError: args is null",
          { state :=
              { addLog eff.state "Function Call"
                  (LogData.functionCall entry.name Json.null) with
                  functionCallOutput := some entry },
            sent := eff.sent, tasks := eff.tasks })) := by
  constructor
  · intro eff entry a hty hp hn
    cases hn with
    | inl h1 =>
      refine ⟨_, PendingTask.paletteTimer,
        dispatchEntry_palette eff entry a hty hp h1, rfl, rfl, ?_⟩
      intro st outcome
      exact ⟨st, some (Json.str paletteFeedbackText), rfl⟩
    | inr h2 =>
      refine ⟨_, PendingTask.enquiry (a.getField "question") (a.getField "sessionId"),
        dispatchEntry_enquiry eff entry a hty hp h2.1 h2.2, rfl, rfl, ?_⟩
      intro st outcome
      exact enquiryComplete_one_event st outcome
  · intro eff entry hty h2 hp
    have h1 : entry.name ≠ "display_color_palette" := by
      rw [h2]
      decide
    unfold dispatchEntry
    rw [if_pos hty, hp]
    dsimp only []
    rw [if_neg h1, if_pos h2]

/-- C5 counterexample: the enquiry entry with arguments "null" is a
recognized function call (name matches, arguments parse), yet the
dispatcher throws, schedules no task and sends nothing — zero follow-up
instructions are ever emitted for it, not exactly one. -/
theorem recognized_call_zero_followup_counterexample :
    jsonParse nullArgsEntry.arguments = some Json.null ∧
    nullArgsEntry.name = "foreign_worker_enquiry" ∧
    (dispatchOutputs emptyEffects [nullArgsEntry]).error =
      some "TypeError: args is null" ∧
    (dispatchOutputs emptyEffects [nullArgsEntry]).effects.tasks = [] ∧
    (dispatchOutputs emptyEffects [nullArgsEntry]).effects.sent = [] :=
  ⟨rfl, rfl, rfl, rfl, rfl⟩

/-- C5 witness: the concrete palette call, and the concrete null-arguments
enquiry call. -/
theorem recognized_call_one_followup_witness :
    (∃ (eff1 : Effects) (t : PendingTask),
      dispatchEntry emptyEffects paletteEntry = Except.ok eff1 ∧
      eff1.sent = emptyEffects.sent ∧
      eff1.tasks = emptyEffects.tasks ++ [t] ∧
      ∀ (st : PanelState) (outcome : FetchOutcome),
        ∃ (st1 : PanelState) (ins : Option Json),
          runTask st t outcome = (st1, [ClientEvent.response_create ins])) ∧
    dispatchEntry emptyEffects nullArgsEntry =
      Except.error ("TypeError: args is null",
        { state :=
            { addLog emptyEffects.state "Function Call"
                (LogData.functionCall nullArgsEntry.name Json.null) with
                functionCallOutput := some nullArgsEntry },
          sent := emptyEffects.sent, tasks := emptyEffects.tasks }) :=
  ⟨recognized_call_one_followup.1 emptyEffects paletteEntry paletteArgsJson
      rfl rfl (Or.inl rfl),
   recognized_call_one_followup.2 emptyEffects nullArgsEntry rfl rfl rfl⟩

/-! ## C8: enquiry log/emission ordering -/

/-- C8: dispatching a valid enquiry call (one whose parsed arguments are
not null, so that the handler reaches the fetch rather than throwing at
args.question) leaves the API Request entry at the head of the log while
the fetch task is still pending (so the request is logged before the call
completes and nothing has been emitted yet); on a success whose decoded
body is non-null, the completion returns the state already holding the API
Response entry together with the single emitted instruction, whose text is
the body's text field; for the body \x7b"text":"Answer."\x7d the
instructions are exactly "Answer.". -/
theorem enquiry_log_ordering :
    (∀ (eff : Effects) (entry : OutputEntry) (a : Json),
      entry.type = "function_call" →
      jsonParse entry.arguments = some a →
      entry.name = "foreign_worker_enquiry" →
      a ≠ Json.null →
      ∃ eff1 : Effects,
        dispatchEntry eff entry = Except.ok eff1 ∧
        eff1.state.logs.head? = some
          { timestamp := eff.state.clock + 1, type := "API Request",
            data := LogData.apiRequest enquiryEndpoint (a.getField "question")
              (a.getField "sessionId") } ∧
        eff1.tasks = eff.tasks ++
          [PendingTask.enquiry (a.getField "question") (a.getField "sessionId")] ∧
        eff1.sent = eff.sent) ∧
    (∀ (st : PanelState) (status : Nat) (body : String) (d : Json),
      jsonParse body = some d → d ≠ Json.null →
      enquiryComplete st (FetchOutcome.httpResponse status body) =
        (addLog st "API Response" (LogData.apiResponse d),
         [ClientEvent.response_create (d.getField "text")])) ∧
    (∀ (st : PanelState) (status : Nat),
      enquiryComplete st (FetchOutcome.httpResponse status answerBody) =
        (addLog st "API Response"
          (LogData.apiResponse (Json.obj [("text", Json.str "Answer.")])),
         [ClientEvent.response_create (some (Json.str "Answer."))])) := by
  refine ⟨?_, ?_, fun st status => rfl⟩
  · intro eff entry a hty hp h2 hnn
    refine ⟨_, dispatchEntry_enquiry eff entry a hty hp h2 hnn, ?_, rfl, rfl⟩
    rfl
  · intro st status body d hp hne
    unfold enquiryComplete
    dsimp only []
    rw [hp]
    cases d <;> first | exact absurd rfl hne | rfl

/-- C8 witness: the concrete enquiry call and the concrete Answer. body. -/
theorem enquiry_log_ordering_witness :
    (∃ eff1 : Effects,
        dispatchEntry emptyEffects enquiryEntry = Except.ok eff1 ∧
        eff1.state.logs.head? = some
          { timestamp := emptyEffects.state.clock + 1, type := "API Request",
            data := LogData.apiRequest enquiryEndpoint
              (enquiryArgsJson.getField "question")
              (enquiryArgsJson.getField "sessionId") } ∧
        eff1.tasks = emptyEffects.tasks ++
          [PendingTask.enquiry (enquiryArgsJson.getField "question")
            (enquiryArgsJson.getField "sessionId")] ∧
        eff1.sent = emptyEffects.sent) ∧
    enquiryComplete initialState (FetchOutcome.httpResponse 200 answerBody) =
      (addLog initialState "API Response"
        (LogData.apiResponse (Json.obj [("text", Json.str "Answer.")])),
       [ClientEvent.response_create (some (Json.str "Answer."))]) :=
  ⟨enquiry_log_ordering.1 emptyEffects enquiryEntry enquiryArgsJson rfl rfl rfl
      (fun h => Json.noConfusion h),
   enquiry_log_ordering.2.2 initialState 200⟩

/-! ## C9: oldest event for the gate, newest for the output check -/

/-- C9: with the session.created event oldest (last index) and the
response.done event newest (index 0), a run is exactly the gate on the
oldest followed by dispatch of the newest event's outputs; with the two
positions swapped, neither check fires and the run is a no-op — the two
positions are read independently and never conflated. -/
theorem dispatcher_positions (st : PanelState) (eNew eOld : SessionEvent)
    (mid : List SessionEvent) (outs : List OutputEntry)
    (hOld : eOld.type = "session.created")
    (hNew : eNew.type = "response.done")
    (hout : eNew.response.output = some outs) :
    eventsEffect st (eNew :: (mid ++ [eOld])) =
      dispatchOutputs (sessionGateStep { state := st, sent := [], tasks := [] } eOld)
        outs ∧
    eventsEffect st (eOld :: (mid ++ [eNew])) =
      { effects := { state := st, sent := [], tasks := [] }, error := none } := by
  have hl1 : (eNew :: (mid ++ [eOld])).getLast? = some eOld := by
    rw [show eNew :: (mid ++ [eOld]) = (eNew :: mid) ++ [eOld] from rfl]
    exact List.getLast?_concat _
  have hl2 : (eOld :: (mid ++ [eNew])).getLast? = some eNew := by
    rw [show eOld :: (mid ++ [eNew]) = (eOld :: mid) ++ [eNew] from rfl]
    exact List.getLast?_concat _
  constructor
  · rw [eventsEffect_cons st eNew (mid ++ [eOld]) eOld hl1]
    unfold outputCheckStep
    rw [if_pos hNew, hout]
  · rw [eventsEffect_cons st eOld (mid ++ [eNew]) eNew hl2]
    have hg : sessionGateStep { state := st, sent := [], tasks := [] } eNew =
        { state := st, sent := [], tasks := [] } := by
      unfold sessionGateStep
      rw [if_neg]
      intro hand
      exact absurd (hNew.symm.trans hand.2) (by decide)
    rw [hg]
    unfold outputCheckStep
    rw [if_neg]
    intro hty
    exact absurd (hOld.symm.trans hty) (by decide)

/-- C9 witness: a two-event feed, session.created oldest, response.done
newest, and the swapped feed. -/
theorem dispatcher_positions_witness :
    eventsEffect initialState (doneEvent [] :: ([] ++ [createdEvent])) =
      dispatchOutputs
        (sessionGateStep { state := initialState, sent := [], tasks := [] }
          createdEvent) [] ∧
    eventsEffect initialState (createdEvent :: ([] ++ [doneEvent []])) =
      { effects := { state := initialState, sent := [], tasks := [] },
        error := none } :=
  dispatcher_positions initialState (doneEvent []) createdEvent [] [] rfl rfl rfl

/-! ## C10: the registration gate logs two entries -/

/-- Prepending two entries with re-truncation keeps the first 48 retained. -/
theorem take50_cons_cons (x y : LogEntry) (L : List LogEntry) :
    (x :: (y :: L).take 50).take 50 = x :: y :: L.take 48 := by
  have h : (x :: (y :: L).take 50).take 50 = x :: y :: (L.take 49).take 48 := rfl
  rw [h, List.take_take]
  norm_num

/-- C10: whenever the gate fires it appends exactly two log entries — a
Session Created entry carrying the triggering event, then a Tools Registered
entry carrying the tool catalog (so, newest first, Tools Registered sits
above Session Created) — besides sending the one registration event and
raising the flag. -/
theorem session_gate_two_logs (eff : Effects) (fe : SessionEvent)
    (hflag : eff.state.functionAdded = false)
    (hty : fe.type = "session.created") :
    (sessionGateStep eff fe).state.logs =
      { timestamp := eff.state.clock + 1, type := "Tools Registered",
        data := LogData.tools sessionTools } ::
      { timestamp := eff.state.clock, type := "Session Created",
        data := LogData.event fe } :: (eff.state.logs).take 48 ∧
    (sessionGateStep eff fe).sent = eff.sent ++ [sessionUpdate] ∧
    (sessionGateStep eff fe).state.functionAdded = true := by
  unfold sessionGateStep
  rw [if_pos ⟨hflag, hty⟩]
  refine ⟨?_, rfl, rfl⟩
  dsimp only []
  simp only [addLog_logs, addLog_clock]
  exact take50_cons_cons _ _ _

/-- C10 witness: the gate firing on the initial state. -/
theorem session_gate_two_logs_witness :
    (sessionGateStep emptyEffects createdEvent).state.logs =
      { timestamp := emptyEffects.state.clock + 1, type := "Tools Registered",
        data := LogData.tools sessionTools } ::
      { timestamp := emptyEffects.state.clock, type := "Session Created",
        data := LogData.event createdEvent } :: (emptyEffects.state.logs).take 48 ∧
    (sessionGateStep emptyEffects createdEvent).sent =
      emptyEffects.sent ++ [sessionUpdate] ∧
    (sessionGateStep emptyEffects createdEvent).state.functionAdded = true :=
  session_gate_two_logs emptyEffects createdEvent rfl rfl
